import Mathlib

/- Shallow embedding of the cache-aware retrieval-and-answer pipeline of the
medical assistant chatbot (backend/core/persona.py, backend/core/cache.py,
backend/services/llm.py, backend/services/rag.py,
backend/services/vector_store.py, backend/api/routes/chat.py).

Python strings are modelled as lists of characters; `str.lower` and
`str.strip` are modelled character-wise, which coincides with Python on the
ASCII texts this code manipulates.  External collaborators (the Redis client,
the Pinecone index, the embedding model, the Groq chat-completion API, the
Mongo repository, the md5 compression function of hashlib) are oracle
parameters; the pipeline functions additionally return the ordered list of
side-effecting collaborator calls they perform, so that claims about "X is
never invoked" become statements about that event list. -/

namespace MedChat

abbrev Str := List Char

/-- The apostrophe character (U+0027), kept out of string literals. -/
def apos : Char := Char.ofNat 39

/-- Python `str.lower`, character-wise. -/
def pyLower (s : Str) : Str := s.map Char.toLower

/-- Python whitespace test used by `str.strip` (ASCII whitespace). -/
def isPySpace (c : Char) : Bool :=
  c == ' ' || c == '\t' || c == '\n' || c == '\r' || c == '\x0B' || c == '\x0C'

/-- Python `str.strip`: drop whitespace from both ends. -/
def pyStrip (s : Str) : Str :=
  ((s.dropWhile isPySpace).reverse.dropWhile isPySpace).reverse

/-- Does `s` start with `needle`? (Helper for Python substring test.) -/
def beginsWith : Str → Str → Bool
  | _, [] => true
  | [], _ :: _ => false
  | c :: cs, n :: ns => c == n && beginsWith cs ns

/-- Python substring test `needle in hay`. -/
def containsSub : Str → Str → Bool
  | [], needle => needle.isEmpty
  | c :: cs, needle => beginsWith (c :: cs) needle || containsSub cs needle

/-- persona.py `detect_emergency_keywords`: the fixed list of red-flag
phrases (all lower-case in the source). -/
def emergency_keywords : List Str :=
  [ "chest pain".data, "heart attack".data, "stroke".data,
    "can".data ++ apos :: "t breathe".data,
    "severe bleeding".data, "unconscious".data, "suicide".data,
    "overdose".data, "severe pain".data, "emergency".data, "dying".data ]

/-- persona.py `detect_emergency_keywords(query)`: case-insensitive
substring match of any red-flag phrase in the query. -/
def detect_emergency_keywords (query : Str) : Bool :=
  let query_lower := pyLower query
  emergency_keywords.any (fun keyword => containsSub query_lower keyword)

/-- persona.py `DISCLAIMER_MESSAGES["low_confidence"]`. -/
def DISCLAIMER_low_confidence : Str :=
  "⚠️ I have limited information on this topic. Please consult a healthcare professional for accurate guidance.".data

/-- persona.py `DISCLAIMER_MESSAGES["emergency"]`. -/
def DISCLAIMER_emergency : Str :=
  "🚨 If this is a medical emergency, please call emergency services immediately or visit the nearest hospital.".data

/-- persona.py `format_response(raw_response, confidence)`:
`RESPONSE_TEMPLATE` is the identity template, and the low-confidence
disclaimer is prefixed exactly when `confidence < 0.5`. -/
def format_response (raw_response : Str) (confidence : ℚ) : Str :=
  if confidence < 1/2
  then DISCLAIMER_low_confidence ++ "\n\n".data ++ raw_response
  else raw_response

/-- persona.py `get_emergency_response()`. -/
def get_emergency_response : Str :=
  DISCLAIMER_emergency ++ "\n\nI".data ++
    apos :: "m designed to provide general medical information, not emergency assistance. Your safety is the top priority.".data

/-- One entry of the list returned by vector_store.py
`VectorDatabase.search` (the metadata fields consumed downstream). -/
structure SearchMatch where
  id : Str
  score : ℚ
  text : Str
  source_url : Str
  title : Str
  topic : Str
deriving DecidableEq, Repr

/-- models/schemas.py `Source`. -/
structure Source where
  url : Str
  title : Option Str
  relevance_score : ℚ
deriving DecidableEq, Repr

/-- Loop body of rag.py `RAGPipeline._extract_sources`: `seen` models the
`seen_urls` set, matches are scanned in their given order. -/
def extract_sources_loop (seen : List Str) : List SearchMatch → List Source
  | [] => []
  | m :: rest =>
    if m.source_url ∈ seen then
      extract_sources_loop seen rest
    else
      { url := m.source_url, title := some m.title, relevance_score := m.score } ::
        extract_sources_loop (m.source_url :: seen) rest

/-- rag.py `RAGPipeline._extract_sources(matches)`. -/
def extract_sources (search_matches : List SearchMatch) : List Source :=
  extract_sources_loop [] search_matches

/-- Side-effecting collaborator calls, in the order the pipeline performs
them. -/
inductive Event
  | cacheGet
  | embed
  | vectorSearch (top_k : Int)
  | llmCall
  | mongoSave
  | cacheSet
deriving DecidableEq, Repr

/-- A Python value passed as `top_k`: an int, a string, or None. -/
inductive PyVal
  | int (n : Int)
  | str (s : Str)
  | none
deriving DecidableEq, Repr

/-- Python truthiness for the values a caller can pass as `top_k`. -/
def pyTruthy : PyVal → Bool
  | .int n => n != 0
  | .str s => !s.isEmpty
  | .none => false

/-- Decimal digit value of a character, if it is a digit. -/
def digitVal (c : Char) : Option Nat :=
  if '0' ≤ c ∧ c ≤ '9' then some (c.toNat - '0'.toNat) else Option.none

/-- Accumulate a run of decimal digits; any non-digit fails. -/
def parseDigitsAux (acc : Nat) : Str → Option Nat
  | [] => some acc
  | c :: cs =>
    match digitVal c with
    | some d => parseDigitsAux (acc * 10 + d) cs
    | Option.none => Option.none

/-- Parse a non-empty all-digit string. -/
def parseDigits (s : Str) : Option Nat :=
  if s.isEmpty then Option.none else parseDigitsAux 0 s

/-- Error text standing for the ValueError raised by Python `int`. -/
def INT_VALUE_ERROR : Str := "invalid literal for int with base 10".data

/-- Python `int(x)` on a string: optionally signed decimal digits with
surrounding whitespace allowed; anything else raises ValueError. -/
def pyIntOfStr (s : Str) : Except Str Int :=
  match pyStrip s with
  | '+' :: ds =>
    (match parseDigits ds with
     | some n => .ok (n : Int)
     | Option.none => .error INT_VALUE_ERROR)
  | '-' :: ds =>
    (match parseDigits ds with
     | some n => .ok (-(n : Int))
     | Option.none => .error INT_VALUE_ERROR)
  | ds =>
    (match parseDigits ds with
     | some n => .ok (n : Int)
     | Option.none => .error INT_VALUE_ERROR)

/-- Python `int(x)` on the values a caller can pass as `top_k`. -/
def pyInt : PyVal → Except Str Int
  | .int n => .ok n
  | .str s => pyIntOfStr s
  | .none => .error ("int argument must be a string or a number, not NoneType".data)

/-- rag.py line 34: `top_k = int(top_k) if top_k else 3`. -/
def coerce_top_k (top_k : PyVal) : Except Str Int :=
  if pyTruthy top_k then pyInt top_k else .ok 3

/-- config.py `Settings.TOP_K_RESULTS` default. -/
def TOP_K_RESULTS : Int := 5

/-- vector_store.py `VectorDatabase.search` line 90:
`top_k = top_k or settings.TOP_K_RESULTS` (a falsy 0 is replaced by the
configured default, any other int passes through). -/
def search_effective_top_k (top_k : Int) : Int :=
  if top_k == 0 then TOP_K_RESULTS else top_k

/-- Outcome of the external Groq chat-completion call: the generated text,
or an exception (timeout, quota, malformed output). -/
inductive GroqOutcome
  | ok (text : Str)
  | error (msg : Str)
deriving DecidableEq, Repr

/-- The dict returned by llm.py `Llama3LLM.generate_response` (the keys
consumed downstream). -/
structure LLMResult where
  response : Str
  confidence : ℚ
  emergency : Bool
deriving DecidableEq, Repr

/-- llm.py fallback text of the `except` branch of `generate_response`. -/
def FALLBACK_TEXT : Str :=
  "I apologize, but I".data ++
    apos :: "m having trouble processing your question right now. Please try again or rephrase your question.".data

/-- llm.py `Llama3LLM.generate_response(query, context_chunks)`.  The Groq
API call is the oracle `groq`; the returned event list records whether that
call was performed.  The emergency check short-circuits before the API call.
Prompt construction is pure string formatting that only feeds the external
model and is not modelled.  A ZeroDivisionError from the mean over an empty
chunk list is caught by the same `except` branch as an API failure. -/
def generate_response (query : Str) (context_chunks : List SearchMatch)
    (groq : GroqOutcome) : LLMResult × List Event :=
  if detect_emergency_keywords query then
    ({ response := get_emergency_response, confidence := 1, emergency := true }, [])
  else
    match groq with
    | .error _ =>
      ({ response := FALLBACK_TEXT, confidence := 0, emergency := false }, [Event.llmCall])
    | .ok text =>
      if context_chunks.isEmpty then
        ({ response := FALLBACK_TEXT, confidence := 0, emergency := false }, [Event.llmCall])
      else
        let avg_score := (context_chunks.map SearchMatch.score).sum / (context_chunks.length : ℚ)
        let confidence := min avg_score 1
        ({ response := format_response text confidence, confidence := confidence,
           emergency := false }, [Event.llmCall])

/-- The dict returned by rag.py `RAGPipeline.query` (the keys consumed by
the chat route). -/
structure RagResult where
  response : Str
  sources : List Source
  confidence : ℚ
  emergency : Bool
deriving DecidableEq, Repr

/-- rag.py fixed no-match answer text (line 52). -/
def NO_MATCH_TEXT : Str :=
  "I don".data ++
    apos :: "t have specific information about that topic in my current knowledge base. My knowledge covers diabetes, hypertension, and related cardiovascular conditions. Please try asking about these topics, or consult a healthcare professional for information on other medical subjects.".data

/-- rag.py `RAGPipeline.query(user_query, top_k, topic_filter)`.  The
embedding model and the Pinecone index are external collaborators: the list
the vector search returns is the oracle `search_matches`.  An error value
models an uncaught Python exception. -/
def rag_query (user_query : Str) (top_k : PyVal) (search_matches : List SearchMatch)
    (groq : GroqOutcome) : Except Str (RagResult × List Event) :=
  match coerce_top_k top_k with
  | .error e => .error e
  | .ok k =>
    let evs := [Event.embed, Event.vectorSearch (search_effective_top_k k)]
    if search_matches.isEmpty then
      .ok ({ response := NO_MATCH_TEXT, sources := [], confidence := 0,
             emergency := false }, evs)
    else
      let gr := generate_response user_query search_matches groq
      .ok ({ response := gr.1.response,
             sources := extract_sources search_matches,
             confidence := gr.1.confidence,
             emergency := gr.1.emergency }, evs ++ gr.2)

/-- A cached response as stored by the chat route (the keys written in
`cache_data` and read back on a hit). -/
structure CacheEntry where
  response : Str
  sources : List Source
  confidence : ℚ
deriving DecidableEq, Repr

/-- models/schemas.py `ChatResponse`, restricted to the fields the text
route populates.  Note the schema carries no emergency field. -/
structure ChatResponse where
  response : Str
  sources : List Source
  confidence : ℚ
  cached : Bool
deriving DecidableEq, Repr

/-- api/routes/chat.py `chat_text(request)`.  The cache read result and the
retrieval/generation collaborators are oracle parameters (the session id
only parameterizes the cache key held by those oracles).  The event list
records the side effects in order: cache get, then on a miss the RAG
pipeline events followed by the Mongo save and the cache set. -/
def chat_text (query : Str) (cached : Option CacheEntry)
    (search_matches : List SearchMatch) (groq : GroqOutcome) :
    Except Str (ChatResponse × List Event) :=
  match cached with
  | some c =>
    .ok ({ response := c.response, sources := c.sources, confidence := c.confidence,
           cached := true }, [Event.cacheGet])
  | Option.none =>
    match rag_query query (PyVal.int 10) search_matches groq with
    | .error e => .error e
    | .ok rr =>
      .ok ({ response := rr.1.response, sources := rr.1.sources,
             confidence := rr.1.confidence, cached := false },
           Event.cacheGet :: rr.2 ++ [Event.mongoSave, Event.cacheSet])

/-- One hex digit character, lower-case, as `hashlib` hexdigest emits. -/
def hexDigitChar (n : Nat) : Char :=
  match n % 16 with
  | 0 => '0' | 1 => '1' | 2 => '2' | 3 => '3' | 4 => '4'
  | 5 => '5' | 6 => '6' | 7 => '7' | 8 => '8' | 9 => '9'
  | 10 => 'a' | 11 => 'b' | 12 => 'c' | 13 => 'd' | 14 => 'e'
  | 15 => 'f' | _ => '0'

/-- The 32-character lower-case hex rendering of a 128-bit digest value, as
`hashlib.md5(...).hexdigest()` produces.  The md5 compression function
itself is the oracle `digest`; only the shape of its hex output matters for
the claims about cache keys. -/
def hexString32 (n : Nat) : Str :=
  (List.range 32).map (fun i => hexDigitChar (n / 16 ^ (31 - i) % 16))

/-- core/cache.py `CacheManager._generate_key(query, session_id)`:
`content = f"{query.lower().strip()}:{session_id}"` and the key is
`f"chat:{hashlib.md5(content.encode()).hexdigest()}"`. -/
def generate_key (digest : Str → Nat) (query session_id : Str) : Str :=
  let content := pyStrip (pyLower query) ++ ':' :: session_id
  "chat:".data ++ hexString32 (digest content)

/-- Any-suffix scan: `globStarAux f s` is true when `f` holds of some
suffix of `s` (including `s` itself and the empty suffix).  This is what a
`*` in a Redis glob pattern does with the rest of the pattern. -/
def globStarAux (f : Str → Bool) : Str → Bool
  | [] => f []
  | c :: cs => f (c :: cs) || globStarAux f cs

/-- Redis `KEYS` glob matching, for the pattern constructs this code uses
(literal characters and `*`). -/
def globMatch : Str → Str → Bool
  | [], s => s.isEmpty
  | p :: ps, s =>
    if p = '*' then globStarAux (fun t => globMatch ps t) s
    else
      match s with
      | [] => false
      | c :: cs => p == c && globMatch ps cs

/-- The Redis keyspace, modelled as an association list from keys to the
cached payloads; the first binding for a key is its current value. -/
abbrev RedisStore := List (Str × CacheEntry)

/-- core/cache.py `CacheManager.get(query, session_id)` against the
modelled store: look up the generated key. -/
def store_get (store : RedisStore) (digest : Str → Nat) (query session_id : Str) :
    Option CacheEntry :=
  (store.find? (fun kv => kv.1 == generate_key digest query session_id)).map Prod.snd

/-- core/cache.py `CacheManager.set(query, response, session_id)` against
the modelled store: `setex` binds the generated key to the payload. -/
def store_set (store : RedisStore) (digest : Str → Nat) (query session_id : Str)
    (entry : CacheEntry) : RedisStore :=
  (generate_key digest query session_id, entry) :: store

/-- core/cache.py `CacheManager.clear_session(session_id)`:
`pattern = f"chat:*:{session_id}"`, then `KEYS pattern` and `DEL` of every
matching key. -/
def clear_session (store : RedisStore) (session_id : Str) : RedisStore :=
  let pattern := "chat:*:".data ++ session_id
  store.filter (fun kv => !globMatch pattern kv.1)

/-- A stand-in md5 compression function for concrete evaluations; the
theorems about key derivation hold for every `digest` oracle. -/
def sampleDigest : Str → Nat := List.length

/-- Two retrieved chunks sharing one origin URL, in score-descending order,
as in the scenario of spec §8. -/
def sampleMatches : List SearchMatch :=
  [ { id := "a1".data, score := 1, text := "t1".data, source_url := "u".data,
      title := "Title".data, topic := "diabetes".data },
    { id := "a2".data, score := 0, text := "t2".data, source_url := "u".data,
      title := "Title".data, topic := "diabetes".data } ]

lemma beginsWith_append (k : Str) :
    ∀ (q s : Str), beginsWith q k = true → beginsWith (q ++ s) k = true := by
  induction k with
  | nil => intro q s _; cases q <;> simp [beginsWith]
  | cons n ns ih =>
    intro q s h
    cases q with
    | nil => simp [beginsWith] at h
    | cons c cs =>
      simp [beginsWith] at h ⊢
      exact ⟨h.1, ih cs s h.2⟩

lemma containsSub_nil_needle : ∀ l : Str, containsSub l [] = true := by
  intro l; cases l <;> simp [containsSub, beginsWith]

lemma containsSub_append_right (k s : Str) :
    ∀ (q : Str), containsSub q k = true → containsSub (q ++ s) k = true := by
  intro q
  induction q with
  | nil =>
    intro h
    simp [containsSub, List.isEmpty_iff] at h
    subst h
    simpa using containsSub_nil_needle s
  | cons c cs ih =>
    intro h
    simp [containsSub] at h ⊢
    rcases h with h | h
    · exact Or.inl (beginsWith_append k (c :: cs) s h)
    · exact Or.inr (ih h)

lemma containsSub_append_left (k : Str) :
    ∀ (p q : Str), containsSub q k = true → containsSub (p ++ q) k = true := by
  intro p
  induction p with
  | nil => intro q h; simpa using h
  | cons c cs ih =>
    intro q h
    simp [containsSub]
    exact Or.inr (ih q h)

/-- C10: emergency detection is closed under query extension: for every
query `q` with `detect_emergency_keywords q` true and all strings `p` and
`s`, `detect_emergency_keywords (p ++ q ++ s)` is also true, since
case-insensitive substring matching cannot be suppressed by surrounding
context. -/
theorem detect_emergency_extension (p q s : Str)
    (h : detect_emergency_keywords q = true) :
    detect_emergency_keywords (p ++ q ++ s) = true := by
  simp only [detect_emergency_keywords, List.any_eq_true] at h ⊢
  obtain ⟨k, hk, hsub⟩ := h
  refine ⟨k, hk, ?_⟩
  have h1 : pyLower (p ++ q ++ s) = pyLower p ++ (pyLower q ++ pyLower s) := by
    simp [pyLower]
  rw [h1]
  exact containsSub_append_left k (pyLower p) _
    (containsSub_append_right k (pyLower s) (pyLower q) hsub)

/-- Witness for C10 at a concrete emergency query with surrounding text. -/
theorem detect_emergency_extension_witness :
    detect_emergency_keywords ("um, ".data ++ "chest pain".data ++ " now".data) = true :=
  detect_emergency_extension ("um, ".data) ("chest pain".data) (" now".data) (by decide)

/-- C5: cache-key derivation is a pure deterministic function of the
normalized query and session: `key(q, s) = key(q, s)`; two queries with
identical lower-cased stripped text and the same session map to the same
key; in particular `key(" Q ", s) = key("q", s)`.  This holds for every md5
compression oracle `digest`. -/
theorem generate_key_deterministic_normalized :
    (∀ (digest : Str → Nat) (q s : Str),
      generate_key digest q s = generate_key digest q s) ∧
    (∀ (digest : Str → Nat) (q1 q2 s : Str),
      pyStrip (pyLower q1) = pyStrip (pyLower q2) →
      generate_key digest q1 s = generate_key digest q2 s) ∧
    (∀ (digest : Str → Nat) (s : Str),
      generate_key digest (" Q ".data) s = generate_key digest ("q".data) s) := by
  have congr_key : ∀ (digest : Str → Nat) (q1 q2 s : Str),
      pyStrip (pyLower q1) = pyStrip (pyLower q2) →
      generate_key digest q1 s = generate_key digest q2 s := by
    intro digest q1 q2 s h
    simp only [generate_key]
    rw [h]
  exact ⟨fun _ _ _ => rfl, congr_key,
    fun digest s => congr_key digest (" Q ".data) ("q".data) s (by decide)⟩

/-- Witness for C5: the normalization instance at a concrete digest
oracle, query pair and session. -/
theorem generate_key_deterministic_normalized_witness :
    generate_key sampleDigest (" Q ".data) ("s1".data) =
      generate_key sampleDigest ("q".data) ("s1".data) :=
  generate_key_deterministic_normalized.2.1 sampleDigest
    (" Q ".data) ("q".data) ("s1".data) (by decide)

/-- C7: when the vector search returns an empty list, the pipeline returns
the fixed no-match answer with confidence exactly 0 and an empty Source
list as a valid (non-error) outcome, and the generation model is never
invoked (no `llmCall` event). -/
theorem rag_empty_retrieval_spec (q : Str) (tk : PyVal) (groq : GroqOutcome)
    (k : Int) (h : coerce_top_k tk = Except.ok k) :
    rag_query q tk [] groq =
      Except.ok (RagResult.mk NO_MATCH_TEXT [] 0 false,
        [Event.embed, Event.vectorSearch (search_effective_top_k k)]) ∧
    Event.llmCall ∉ [Event.embed, Event.vectorSearch (search_effective_top_k k)] := by
  constructor
  · simp [rag_query, h]
  · simp

/-- Witness for C7 at a concrete query with the default `top_k` of the chat
route. -/
theorem rag_empty_retrieval_spec_witness :
    rag_query ("what is lupus".data) (PyVal.int 10) [] (GroqOutcome.ok ("x".data)) =
      Except.ok (RagResult.mk NO_MATCH_TEXT [] 0 false,
        [Event.embed, Event.vectorSearch (search_effective_top_k 10)]) ∧
    Event.llmCall ∉ [Event.embed, Event.vectorSearch (search_effective_top_k 10)] :=
  rag_empty_retrieval_spec ("what is lupus".data) (PyVal.int 10)
    (GroqOutcome.ok ("x".data)) 10 rfl

/-- First-occurrence deduplication on a list of URLs, used to state the
order clause of the dedup claim. -/
def dedupFirstAux (seen : List Str) : List Str → List Str
  | [] => []
  | u :: us =>
    if u ∈ seen then dedupFirstAux seen us
    else u :: dedupFirstAux (u :: seen) us

/-- The first-occurrence order of distinct URLs in a list. -/
def dedupFirst (l : List Str) : List Str := dedupFirstAux [] l

lemma extract_sources_loop_map_url (ms : List SearchMatch) :
    ∀ seen, (extract_sources_loop seen ms).map Source.url =
      dedupFirstAux seen (ms.map SearchMatch.source_url) := by
  induction ms with
  | nil => intro seen; simp [extract_sources_loop, dedupFirstAux]
  | cons m rest ih =>
    intro seen
    simp only [extract_sources_loop, dedupFirstAux, List.map_cons]
    by_cases h : m.source_url ∈ seen
    · simp [h, ih]
    · simp [h, ih]

lemma dedupFirstAux_nodup_notin :
    ∀ (l seen : List Str),
      (dedupFirstAux seen l).Nodup ∧ ∀ u ∈ dedupFirstAux seen l, u ∉ seen := by
  intro l
  induction l with
  | nil => intro seen; simp [dedupFirstAux]
  | cons u us ih =>
    intro seen
    by_cases h : u ∈ seen
    · simpa [dedupFirstAux, h] using ih seen
    · have ih2 := ih (u :: seen)
      rw [dedupFirstAux, if_neg h]
      constructor
      · rw [List.nodup_cons]
        exact ⟨fun hc => (ih2.2 u hc) (List.mem_cons_self u seen), ih2.1⟩
      · intro v hv
        rcases List.mem_cons.mp hv with rfl | hv'
        · exact h
        · exact fun hvseen => (ih2.2 v hv') (List.mem_cons_of_mem _ hvseen)

lemma extract_sources_loop_length (ms : List SearchMatch) :
    ∀ seen, (extract_sources_loop seen ms).length ≤ ms.length := by
  induction ms with
  | nil => intro seen; simp [extract_sources_loop]
  | cons m rest ih =>
    intro seen
    rw [extract_sources_loop]
    by_cases h : m.source_url ∈ seen
    · rw [if_pos h]
      exact Nat.le_succ_of_le (ih seen)
    · rw [if_neg h]
      simpa using ih (m.source_url :: seen)

lemma extract_sources_loop_find (ms : List SearchMatch) :
    ∀ seen s, s ∈ extract_sources_loop seen ms →
      s.url ∉ seen ∧
      ∃ m, ms.find? (fun m2 => m2.source_url == s.url) = some m ∧
        s = Source.mk m.source_url (some m.title) m.score := by
  induction ms with
  | nil => intro seen s h; simp [extract_sources_loop] at h
  | cons m rest ih =>
    intro seen s hs
    rw [extract_sources_loop] at hs
    by_cases h : m.source_url ∈ seen
    · rw [if_pos h] at hs
      obtain ⟨hnot, m', hfind, heq⟩ := ih seen s hs
      have hne : ¬(m.source_url == s.url) = true := by
        simp only [beq_iff_eq]
        exact fun he => hnot (he ▸ h)
      refine ⟨hnot, m', ?_, heq⟩
      exact (List.find?_cons_of_neg rest hne).trans hfind
    · rw [if_neg h] at hs
      rcases List.mem_cons.mp hs with rfl | hs'
      · refine ⟨h, m, ?_, rfl⟩
        exact List.find?_cons_of_pos _ (by simp)
      · obtain ⟨hnot, m', hfind, heq⟩ := ih (m.source_url :: seen) s hs'
        have hne : ¬(m.source_url == s.url) = true := by
          simp only [beq_iff_eq]
          exact fun he => hnot (he ▸ List.mem_cons_self _ _)
        refine ⟨fun hseen => hnot (List.mem_cons_of_mem _ hseen), m', ?_, heq⟩
        exact (List.find?_cons_of_neg rest hne).trans hfind

lemma pairwise_find?_max {α : Type} (R : α → α → Prop) (p : α → Bool) :
    ∀ (l : List α) (a : α), List.Pairwise R l → l.find? p = some a →
      ∀ b ∈ l, p b = true → R a b ∨ a = b := by
  intro l
  induction l with
  | nil => intro a _ h; simp at h
  | cons x xs ih =>
    intro a hpw hfind b hb hpb
    rw [List.pairwise_cons] at hpw
    by_cases hx : p x = true
    · rw [List.find?_cons_of_pos _ hx] at hfind
      obtain rfl := Option.some.inj hfind
      rcases List.mem_cons.mp hb with rfl | hb'
      · exact Or.inr rfl
      · exact Or.inl (hpw.1 b hb')
    · rw [List.find?_cons_of_neg _ (by simpa using hx)] at hfind
      rcases List.mem_cons.mp hb with rfl | hb'
      · exact absurd hpb hx
      · exact ih a hpw.2 hfind b hb' hpb

/-- C6: `_extract_sources` returns Sources with pairwise-distinct URLs, of
length at most the input length, in the first-occurrence order of distinct
URLs; each Source carries the score and title of the first chunk bearing
its URL, hence the maximum score for that URL whenever the input is sorted
descending by score. -/
theorem extract_sources_spec (ms : List SearchMatch) :
    ((extract_sources ms).map Source.url).Nodup ∧
    (extract_sources ms).length ≤ ms.length ∧
    (extract_sources ms).map Source.url = dedupFirst (ms.map SearchMatch.source_url) ∧
    (∀ s ∈ extract_sources ms,
      ∃ m, ms.find? (fun m2 => m2.source_url == s.url) = some m ∧
        s = Source.mk m.source_url (some m.title) m.score) ∧
    (List.Pairwise (fun a b => b.score ≤ a.score) ms →
      ∀ s ∈ extract_sources ms, ∀ m ∈ ms, m.source_url = s.url →
        m.score ≤ s.relevance_score) := by
  have hmap : (extract_sources ms).map Source.url =
      dedupFirst (ms.map SearchMatch.source_url) :=
    extract_sources_loop_map_url ms []
  refine ⟨?_, extract_sources_loop_length ms [], hmap,
    fun s hs => (extract_sources_loop_find ms [] s hs).2, ?_⟩
  · rw [hmap]
    exact (dedupFirstAux_nodup_notin (ms.map SearchMatch.source_url) []).1
  · intro hpw s hs m hm hurl
    obtain ⟨m', hfind, heq⟩ := (extract_sources_loop_find ms [] s hs).2
    have hmax := pairwise_find?_max (fun a b => b.score ≤ a.score)
      (fun m2 => m2.source_url == s.url) ms m' hpw hfind m hm (by simp [hurl])
    have hsc : s.relevance_score = m'.score := by rw [heq]
    rcases hmax with hle | rfl
    · rw [hsc]; exact hle
    · rw [hsc]

/-- Witness for C6 on the scenario of spec §8: two chunks sharing a URL in
score-descending order; the surviving Source keeps the higher score. -/
theorem extract_sources_spec_witness :
    (extract_sources sampleMatches).length ≤ sampleMatches.length ∧
    (0 : ℚ) ≤ Source.relevance_score (Source.mk ("u".data) (some ("Title".data)) 1) := by
  have h := extract_sources_spec sampleMatches
  refine ⟨h.2.1, ?_⟩
  exact h.2.2.2.2 (by simp [sampleMatches, List.pairwise_cons])
    (Source.mk ("u".data) (some ("Title".data)) 1) (by decide)
    (SearchMatch.mk ("a2".data) 0 ("t2".data) ("u".data) ("Title".data) ("diabetes".data))
    (by decide) rfl

lemma hexDigitChar_ne_colon (n : Nat) : hexDigitChar n ≠ ':' := by
  unfold hexDigitChar
  split <;> decide

lemma hexString32_no_colon (n : Nat) : ∀ c ∈ hexString32 n, c ≠ ':' := by
  intro c hc
  simp only [hexString32, List.mem_map] at hc
  obtain ⟨i, _, rfl⟩ := hc
  exact hexDigitChar_ne_colon _

lemma globMatch_lit_step (p c : Char) (ps cs : Str) (hp : ¬ p = '*') :
    globMatch (p :: ps) (c :: cs) = (p == c && globMatch ps cs) := by
  have h : globMatch (p :: ps) (c :: cs) =
      if p = '*' then globStarAux (fun t => globMatch ps t) (c :: cs)
      else (p == c && globMatch ps cs) := rfl
  rw [h, if_neg hp]

lemma globMatch_star_step (ps s : Str) :
    globMatch ('*' :: ps) s = globStarAux (fun t => globMatch ps t) s := rfl

lemma globStar_colon_false (rest : Str) :
    ∀ l : Str, (∀ c ∈ l, c ≠ ':') →
      globStarAux (fun t => globMatch (':' :: rest) t) l = false := by
  intro l
  induction l with
  | nil => intro _; simp [globStarAux, globMatch]
  | cons c cs ih =>
    intro h
    rw [globStarAux]
    have h1 : globMatch (':' :: rest) (c :: cs) = false := by
      rw [globMatch_lit_step _ _ _ _ (by decide)]
      have hne : (':' == c) = false := by
        simp only [beq_eq_false_iff_ne]
        exact fun he => (h c (List.mem_cons_self _ _)) he.symm
      simp [hne]
    rw [h1]
    simpa using ih (fun x hx => h x (List.mem_cons_of_mem _ hx))

/-- No key `_generate_key` can produce (`chat:` followed by 32 hex digits,
which contain no colon) ever matches the deletion pattern
`chat:*:{session_id}` used by `clear_session`, for any digest oracle, any
cached query/session and any session being cleared. -/
lemma clear_pattern_never_matches (digest : Str → Nat) (q s2 s : Str) :
    globMatch ("chat:*:".data ++ s) (generate_key digest q s2) = false := by
  have hshape : ("chat:*:".data ++ s) = 'c' :: 'h' :: 'a' :: 't' :: ':' :: '*' :: ':' :: s := rfl
  rw [hshape]
  show globMatch ('c' :: 'h' :: 'a' :: 't' :: ':' :: '*' :: ':' :: s)
      ('c' :: 'h' :: 'a' :: 't' :: ':' ::
        hexString32 (digest (pyStrip (pyLower q) ++ ':' :: s2))) = false
  rw [globMatch_lit_step _ _ _ _ (by decide)]
  rw [globMatch_lit_step _ _ _ _ (by decide)]
  rw [globMatch_lit_step _ _ _ _ (by decide)]
  rw [globMatch_lit_step _ _ _ _ (by decide)]
  rw [globMatch_lit_step _ _ _ _ (by decide)]
  simp only [beq_self_eq_true, Bool.true_and]
  rw [globMatch_star_step]
  exact globStar_colon_false s _ (hexString32_no_colon _)

/-- `clear_session` deletes nothing from any store whose keys were produced
by `_generate_key`: the glob pattern embeds the session id in clear text
after a colon, but generated keys hash it away inside the digest. -/
lemma clear_session_generated_keys_id (digest : Str → Nat) (s : Str)
    (store : RedisStore)
    (h : ∀ kv ∈ store, ∃ q2 s2, kv.1 = generate_key digest q2 s2) :
    clear_session store s = store := by
  simp only [clear_session]
  rw [List.filter_eq_self]
  intro kv hkv
  obtain ⟨q2, s2, hk⟩ := h kv hkv
  show (!globMatch ("chat:*:".data ++ s) kv.1) = true
  rw [hk, clear_pattern_never_matches digest q2 s2 s]
  rfl

/-- A concretely cached entry for session `s1`. -/
def sampleEntry : CacheEntry :=
  CacheEntry.mk ("Diabetes is a chronic condition.".data) [] 1

/-- The store after caching one query for session `s1`. -/
def sampleStore : RedisStore :=
  store_set [] sampleDigest ("what is diabetes".data) ("s1".data) sampleEntry

set_option maxRecDepth 20000 in
/-- C4 (code bug): after `clear_session("s1")` completes successfully, the
entry cached under key(query, "s1") is still present and a subsequent get
still returns it — the pattern `chat:*:{session}` matches no generated key,
so nothing is ever deleted, contradicting the claim (and the function's own
docstring) that all entries of the session are removed. -/
theorem clear_session_removes_nothing :
    store_get sampleStore sampleDigest ("what is diabetes".data) ("s1".data) =
      some sampleEntry ∧
    clear_session sampleStore ("s1".data) = sampleStore ∧
    store_get (clear_session sampleStore ("s1".data)) sampleDigest
        ("what is diabetes".data) ("s1".data) = some sampleEntry :=
  ⟨rfl, rfl, rfl⟩

lemma extract_sources_ne_nil (ms : List SearchMatch) (h : ms ≠ []) :
    extract_sources ms ≠ [] := by
  cases ms with
  | nil => exact absurd rfl h
  | cons m rest =>
    rw [extract_sources, extract_sources_loop, if_neg (by simp)]
    exact List.cons_ne_nil _ _

/-- On an emergency query the generation path short-circuits before the
Groq call: the pipeline dict carries the fixed emergency text, confidence
1, the emergency flag, and the deduplicated sources of the retrieved
chunks. -/
lemma rag_query_emergency (q : Str) (ms : List SearchMatch) (groq : GroqOutcome)
    (hq : detect_emergency_keywords q = true) (hms : ms ≠ []) :
    rag_query q (PyVal.int 10) ms groq =
      Except.ok (RagResult.mk get_emergency_response (extract_sources ms) 1 true,
        [Event.embed, Event.vectorSearch 10]) := by
  have hc : coerce_top_k (PyVal.int 10) = Except.ok 10 := rfl
  have hemp : ms.isEmpty = false := by
    cases ms with
    | nil => exact absurd rfl hms
    | cons a l => rfl
  have hgen : generate_response q ms groq =
      (LLMResult.mk get_emergency_response 1 true, []) := by
    simp [generate_response, hq]
  simp [rag_query, hc, hemp, hgen, search_effective_top_k]

/-- C1 (counterexample): for the query "chest pain" — an emergency phrase —
with a non-emergency answer sitting in the cache, the route performs a
cache get and returns the stale cached answer, not the emergency answer:
the emergency check does not run before the cache lookup. -/
theorem emergency_after_cache_counterexample :
    detect_emergency_keywords ("chest pain".data) = true ∧
    chat_text ("chest pain".data) (some sampleEntry) sampleMatches
        (GroqOutcome.ok ("x".data)) =
      Except.ok (ChatResponse.mk sampleEntry.response sampleEntry.sources
        sampleEntry.confidence true, [Event.cacheGet]) ∧
    sampleEntry.response ≠ get_emergency_response :=
  ⟨by decide, rfl, by decide⟩

/-- C1 (amended): the emergency check runs inside generation, after the
cache lookup, the embedding and the vector search: on a cache miss with
non-empty retrieval, an emergency query yields the fixed emergency text
and the model is never invoked (no `llmCall`), but the cache get, the
embedding, the vector search, the Mongo save and the cache set all
occur. -/
theorem emergency_check_inside_generation (q : Str) (ms : List SearchMatch)
    (groq : GroqOutcome) (hq : detect_emergency_keywords q = true)
    (hms : ms ≠ []) :
    chat_text q Option.none ms groq =
      Except.ok (ChatResponse.mk get_emergency_response (extract_sources ms) 1 false,
        [Event.cacheGet, Event.embed, Event.vectorSearch 10,
         Event.mongoSave, Event.cacheSet]) ∧
    Event.llmCall ∉ [Event.cacheGet, Event.embed, Event.vectorSearch 10,
         Event.mongoSave, Event.cacheSet] := by
  constructor
  · simp [chat_text, rag_query_emergency q ms groq hq hms]
  · simp

/-- Witness for the amended C1 at a concrete emergency query on a cache
miss, with the Groq collaborator down (it is never consulted). -/
theorem emergency_check_inside_generation_witness :
    chat_text ("chest pain".data) Option.none sampleMatches
        (GroqOutcome.error ("boom".data)) =
      Except.ok (ChatResponse.mk get_emergency_response
        (extract_sources sampleMatches) 1 false,
        [Event.cacheGet, Event.embed, Event.vectorSearch 10,
         Event.mongoSave, Event.cacheSet]) ∧
    Event.llmCall ∉ [Event.cacheGet, Event.embed, Event.vectorSearch 10,
         Event.mongoSave, Event.cacheSet] :=
  emergency_check_inside_generation ("chest pain".data) sampleMatches
    (GroqOutcome.error ("boom".data)) (by decide) (by decide)

/-- C2 (counterexample): an emergency query whose retrieval returned two
chunks produces a pipeline answer with confidence 1 and the emergency flag,
but a non-empty Source list — the sources of the retrieved chunks. -/
theorem emergency_sources_nonempty_counterexample :
    rag_query ("chest pain".data) (PyVal.int 10) sampleMatches
        (GroqOutcome.ok ("x".data)) =
      Except.ok (RagResult.mk get_emergency_response
        [Source.mk ("u".data) (some ("Title".data)) 1] 1 true,
        [Event.embed, Event.vectorSearch 10]) ∧
    [Source.mk ("u".data) (some ("Title".data)) (1 : ℚ)] ≠ ([] : List Source) :=
  ⟨rfl, List.cons_ne_nil _ _⟩

/-- C2 (amended): a query that triggers the emergency check (which only
happens when retrieval was non-empty) yields confidence exactly 1 and the
emergency flag in the pipeline dict, but the Source list is the non-empty
deduplicated source list of the retrieved chunks, not empty; the
route-level `ChatResponse` schema then drops the emergency flag
entirely. -/
theorem emergency_answer_shape (q : Str) (ms : List SearchMatch)
    (groq : GroqOutcome) (hq : detect_emergency_keywords q = true)
    (hms : ms ≠ []) :
    rag_query q (PyVal.int 10) ms groq =
      Except.ok (RagResult.mk get_emergency_response (extract_sources ms) 1 true,
        [Event.embed, Event.vectorSearch 10]) ∧
    extract_sources ms ≠ [] :=
  ⟨rag_query_emergency q ms groq hq hms, extract_sources_ne_nil ms hms⟩

/-- Witness for the amended C2 at a concrete emergency query and retrieval
result. -/
theorem emergency_answer_shape_witness :
    rag_query ("chest pain".data) (PyVal.int 10) sampleMatches
        (GroqOutcome.ok ("x".data)) =
      Except.ok (RagResult.mk get_emergency_response
        (extract_sources sampleMatches) 1 true,
        [Event.embed, Event.vectorSearch 10]) ∧
    extract_sources sampleMatches ≠ [] :=
  emergency_answer_shape ("chest pain".data) sampleMatches
    (GroqOutcome.ok ("x".data)) (by decide) (by decide)

/-- C3 (counterexample): a no-match request (empty retrieval) ends with a
cache set — the fixed no-match answer with confidence 0 is written to the
cache, so it can be served from cache on a later identical query. -/
theorem no_match_cached_counterexample :
    chat_text ("what is lupus".data) Option.none [] (GroqOutcome.ok ("x".data)) =
      Except.ok (ChatResponse.mk NO_MATCH_TEXT [] 0 false,
        [Event.cacheGet, Event.embed, Event.vectorSearch 10,
         Event.mongoSave, Event.cacheSet]) ∧
    Event.cacheSet ∈ [Event.cacheGet, Event.embed, Event.vectorSearch 10,
         Event.mongoSave, Event.cacheSet] :=
  ⟨rfl, by decide⟩

/-- C3 (amended): every request that misses the cache writes its result to
the cache — emergency and no-match answers included — and only the
cache-hit path performs no cache set. -/
theorem cache_write_on_every_miss :
    (∀ (q : Str) (ms : List SearchMatch) (groq : GroqOutcome)
        (resp : ChatResponse) (evs : List Event),
      chat_text q Option.none ms groq = Except.ok (resp, evs) →
        Event.cacheSet ∈ evs) ∧
    (∀ (q : Str) (e : CacheEntry) (ms : List SearchMatch) (groq : GroqOutcome),
      chat_text q (some e) ms groq =
        Except.ok (ChatResponse.mk e.response e.sources e.confidence true,
          [Event.cacheGet])) := by
  constructor
  · intro q ms groq resp evs h
    cases hm : rag_query q (PyVal.int 10) ms groq with
    | error e =>
      simp only [chat_text] at h
      rw [hm] at h
      exact absurd h (by simp)
    | ok rr =>
      simp only [chat_text] at h
      rw [hm] at h
      simp only [Except.ok.injEq, Prod.mk.injEq] at h
      rw [← h.2]
      exact List.mem_cons_of_mem _ (List.mem_append_right _ (by simp))
  · intro q e ms groq
    rfl

/-- Witness for the amended C3: the no-match request writes the cache. -/
theorem cache_write_on_every_miss_witness :
    Event.cacheSet ∈ [Event.cacheGet, Event.embed, Event.vectorSearch 10,
      Event.mongoSave, Event.cacheSet] :=
  cache_write_on_every_miss.1 ("what is flu".data) [] (GroqOutcome.ok ("x".data))
    (ChatResponse.mk NO_MATCH_TEXT [] 0 false)
    [Event.cacheGet, Event.embed, Event.vectorSearch 10,
     Event.mongoSave, Event.cacheSet] rfl

lemma coerce_top_k_int_nonzero (n : Int) (hn : n ≠ 0) :
    coerce_top_k (PyVal.int n) = Except.ok n := by
  simp [coerce_top_k, pyTruthy, pyInt, hn]

/-- C8 (counterexample): a non-numeric `top_k` is not totally coerced —
`int("abc")` raises a ValueError, which the retrieval entry point
propagates instead of substituting the default. -/
theorem coerce_top_k_raises_counterexample :
    coerce_top_k (PyVal.str ("abc".data)) = Except.error INT_VALUE_ERROR ∧
    rag_query ("what is diabetes".data) (PyVal.str ("abc".data)) []
        (GroqOutcome.ok ("x".data)) = Except.error INT_VALUE_ERROR :=
  ⟨rfl, rfl⟩

/-- C8 (amended): a falsy `top_k` (None, 0, empty string) falls back to the
default 3; any other value goes through `int()`, which converts numeric
values and numeric strings (possibly to a negative integer passed on to the
vector search as-is) and raises on non-numeric strings; the vector search
is invoked with the coerced value (itself substituting its own default for
a zero). -/
theorem coerce_top_k_amended :
    (coerce_top_k PyVal.none = Except.ok 3) ∧
    (coerce_top_k (PyVal.int 0) = Except.ok 3) ∧
    (coerce_top_k (PyVal.str []) = Except.ok 3) ∧
    (∀ n : Int, n ≠ 0 → coerce_top_k (PyVal.int n) = Except.ok n) ∧
    (coerce_top_k (PyVal.str ("7".data)) = Except.ok 7) ∧
    (∀ (q : Str) (ms : List SearchMatch) (groq : GroqOutcome) (n : Int),
      n ≠ 0 → ∃ rr, rag_query q (PyVal.int n) ms groq = Except.ok rr ∧
        Event.vectorSearch (search_effective_top_k n) ∈ rr.2) := by
  refine ⟨rfl, rfl, rfl, coerce_top_k_int_nonzero, rfl, ?_⟩
  intro q ms groq n hn
  simp only [rag_query, coerce_top_k_int_nonzero n hn]
  by_cases hms : ms.isEmpty = true
  · rw [if_pos hms]
    exact ⟨_, rfl, by simp⟩
  · rw [if_neg hms]
    exact ⟨_, rfl, by simp⟩

/-- Witness for the amended C8 at concrete coercion inputs. -/
theorem coerce_top_k_amended_witness :
    coerce_top_k (PyVal.int 5) = Except.ok 5 :=
  coerce_top_k_amended.2.2.2.1 5 (by decide)

lemma beginsWith_self_append : ∀ (k t : Str), beginsWith (k ++ t) k = true := by
  intro k
  induction k with
  | nil => intro t; cases t <;> simp [beginsWith]
  | cons c cs ih => intro t; simp [beginsWith, ih]

set_option maxRecDepth 40000 in
/-- C9 (counterexample): the returned no-match answer has confidence 0,
strictly below 0.5, yet its response text does not contain the
low-confidence disclaimer prefix — the disclaimer is applied only on the
successful generation path, not on every returned response text of the
pipeline. -/
theorem no_match_missing_disclaimer_counterexample :
    rag_query ("what is gout".data) (PyVal.int 10) [] (GroqOutcome.ok ("x".data)) =
      Except.ok (RagResult.mk NO_MATCH_TEXT [] 0 false,
        [Event.embed, Event.vectorSearch 10]) ∧
    ((0 : ℚ) < 1/2) ∧
    containsSub NO_MATCH_TEXT DISCLAIMER_low_confidence = false :=
  ⟨rfl, one_half_pos, by decide⟩

set_option maxRecDepth 40000 in
/-- C9 (amended): on the successful generation path, `format_response`
prefixes the low-confidence disclaimer if and only if confidence < 0.5
(0.49 yields the prefix, 0.5 does not); the no-match and
generation-failure fallback texts, both returned with confidence 0, do not
carry the disclaimer. -/
theorem disclaimer_iff_generation_path :
    (∀ (raw : Str) (c : ℚ), c < 1/2 →
      format_response raw c = DISCLAIMER_low_confidence ++ ("\n\n".data) ++ raw) ∧
    (∀ (raw : Str) (c : ℚ), ¬ c < 1/2 → format_response raw c = raw) ∧
    (∀ raw : Str,
      beginsWith (format_response raw (49/100)) DISCLAIMER_low_confidence = true) ∧
    (∀ raw : Str, format_response raw (1/2) = raw) ∧
    containsSub NO_MATCH_TEXT DISCLAIMER_low_confidence = false ∧
    containsSub FALLBACK_TEXT DISCLAIMER_low_confidence = false := by
  refine ⟨?_, ?_, ?_, ?_, by decide, by decide⟩
  · intro raw c h
    unfold format_response
    rw [if_pos h]
  · intro raw c h
    unfold format_response
    rw [if_neg h]
  · intro raw
    unfold format_response
    rw [if_pos (by norm_num), List.append_assoc]
    exact beginsWith_self_append _ _
  · intro raw
    unfold format_response
    rw [if_neg (by norm_num)]

/-- Witness for the amended C9: at confidence exactly one half the text is
returned unchanged. -/
theorem disclaimer_iff_generation_path_witness :
    format_response ("ans".data) (1/2) = "ans".data :=
  disclaimer_iff_generation_path.2.1 ("ans".data) (1/2) (lt_irrefl (1/2 : ℚ))

end MedChat
